import Mathlib

/-!
# dgraph-docker-helper: lifecycle and admin client

A shallow embedding of `dgraph.go`.  Every function of the Go file that talks to
the outside world (Docker, HTTP, the clock, `testing.T`) is embedded as a pure
function from the answers of the outside world to the list of effects the
function performs, in program order (`Event`).  A `require.*` assertion that
fails calls `t.FailNow()`, which ends the calling function on the spot: it is
the event `Event.failNow`, after which the trace ends.
-/

namespace DgraphDockerHelper

/-! ## Library constants and helpers used by the source -/

namespace time

/-- Durations are counted in nanoseconds, as Go's `time.Duration`. -/
def Millisecond : Nat := 1000000

/-- One second, `1000 * Millisecond`. -/
def Second : Nat := 1000 * Millisecond

end time

namespace http

/-- The status code `http.StatusOK`. -/
def StatusOK : Int := 200

end http

namespace fmt

/-- The verb `%d` of `fmt.Sprintf` on an `int`: decimal digits, `-` in front of a negative. -/
def d (n : Int) : String := toString n

end fmt

namespace strings

/-- Substring search on the characters of the haystack. -/
def containsChars (substr : List Char) : List Char → Bool
  | [] => substr.isEmpty
  | c :: cs => substr.isPrefixOf (c :: cs) || containsChars substr cs

/-- Go's `strings.Contains s substr`: `substr` occurs within `s`. -/
def Contains (s substr : String) : Bool := containsChars substr.data s.data

end strings

/-! ## Data model -/

/-- The constant `DefaultDgraphImage`. -/
def DefaultDgraphImage : String := "dgraph/standalone:v21.03.2"

/-- The handle `DgraphConfig`. -/
structure DgraphConfig where
  Port : Int
  ContainerID : String
deriving DecidableEq, Repr

/-- `GetURL`: `fmt.Sprintf("http://localhost:%d", cfg.Port)`. -/
def DgraphConfig.GetURL (cfg : DgraphConfig) : String :=
  "http://localhost:" ++ fmt.d cfg.Port

/-- The anonymous struct of the field `Data` of `dgraphUpdateResponse`. -/
structure dgraphUpdateData where
  Code : String
  Message : String
deriving DecidableEq, Repr

/-- The anonymous struct of the elements of the field `Errors`. -/
structure dgraphUpdateError where
  Message : String
deriving DecidableEq, Repr

/-- The struct `dgraphUpdateResponse`; a field absent from the JSON text keeps Go's zero
value (`""`, the empty slice). -/
structure dgraphUpdateResponse where
  Data : dgraphUpdateData
  Errors : List dgraphUpdateError
deriving DecidableEq, Repr

/-- One value of `nat.PortBinding`. -/
structure PortBinding where
  HostIP : String
  HostPort : String
deriving DecidableEq, Repr

/-- The fields of `container.Config` the source sets; `ExposedPorts` lists the keys of the
`nat.PortSet`. -/
structure ContainerConfig where
  Image : String
  Env : List String
  ExposedPorts : List String
deriving DecidableEq, Repr

/-- The field of `container.HostConfig` the source sets: the `nat.PortMap`, as its list of
(container port, bindings) entries. -/
structure HostConfig where
  PortBindings : List (String × List PortBinding)
deriving DecidableEq, Repr

/-- What `http.Get` returns, as far as the source reads it: an error, or a response with
its status code. -/
inductive GetResult where
  | err
  | resp (StatusCode : Int)
deriving DecidableEq, Repr

/-- What `http.Post` returns, as far as the source reads it: an error, or a response with
its status code and the outcome of `json.NewDecoder(resp.Body).Decode` on its body
(`none`: the decoder returns an error). -/
inductive PostResult where
  | err
  | resp (StatusCode : Int) (Body : Option dgraphUpdateResponse)
deriving DecidableEq, Repr

/-- The effects of the helper functions, in program order. -/
inductive Event where
  | log (msg : String)
  | logUnexpected (r : dgraphUpdateResponse)
  | containerCreate (cfg : ContainerConfig) (hostConfig : HostConfig)
  | containerStart (id : String)
  | httpGet (url : String)
  | httpPost (url contentType body : String)
  | sleep (d : Nat)
  | error (msg : String)
  | failNow
deriving DecidableEq, Repr

/-! ## Operations -/

/-- The answers of the operating system to `getFreePort`. -/
structure NetEnv where
  resolveTCPAddr : Bool
  listenTCP : Option Int

/-- `getFreePort`: the port of a transient listener, or the error. -/
def getFreePort (net : NetEnv) : Option Int :=
  if net.resolveTCPAddr = false then none
  else
    match net.listenTCP with
    | none => none
    | some port => some port

/-- The answers of the outside world to `DgraphStart`: of the operating system to
`getFreePort`, of `client.NewClientWithOpts` (`true`: no error), of `ContainerCreate` (the ID
of the created container, or `none` for an error), of `ContainerStart` (`true`: no error), and
of the instance to the `i`-th `http.Get`, counted from 0. -/
structure StartEnv where
  net : NetEnv
  newClient : Bool
  containerCreate : Option String
  containerStart : Bool
  get : Nat → GetResult

/-- The loop `for i := 0; i < 30; i++` of `DgraphStart`, with `n` iterations left at index `i`. -/
def readinessLoop (url : String) (get : Nat → GetResult) : Nat → Nat → List Event
  | 0, _ => []
  | n + 1, i =>
    Event.httpGet url ::
      match get i with
      | GetResult.resp status =>
        if status = http.StatusOK then []
        else Event.sleep time.Second :: readinessLoop url get n (i + 1)
      | GetResult.err => Event.sleep time.Second :: readinessLoop url get n (i + 1)

/-- `DgraphStart`: the trace, and the returned handle (`none` when a `require` ended the call). -/
def DgraphStart (env : StartEnv) (image : String) : List Event × Option DgraphConfig :=
  let image := if image = "" then DefaultDgraphImage else image
  match getFreePort env.net with
  | none => ([Event.log "Starting dgraph container", Event.failNow], none)
  | some port =>
    if env.newClient = false then
      ([Event.log "Starting dgraph container", Event.failNow], none)
    else
      let cfg : ContainerConfig :=
        { Image := image, Env := [], ExposedPorts := [fmt.d port ++ "/tcp"] }
      let hostConfig : HostConfig :=
        { PortBindings := [("8080/tcp", [{ HostIP := "0.0.0.0", HostPort := fmt.d port }])] }
      match env.containerCreate with
      | none =>
        ([Event.log "Starting dgraph container", Event.containerCreate cfg hostConfig,
          Event.failNow], none)
      | some id =>
        if env.containerStart = false then
          ([Event.log "Starting dgraph container", Event.containerCreate cfg hostConfig,
            Event.containerStart id, Event.failNow], none)
        else
          let config : DgraphConfig := { Port := port, ContainerID := id }
          (Event.log "Starting dgraph container" :: Event.containerCreate cfg hostConfig ::
            Event.containerStart id :: Event.sleep (time.Second * 1) ::
            readinessLoop config.GetURL env.get 30 0, some config)

/-- The local `url` of `DgraphLoadSchema`:
`fmt.Sprintf("http://localhost:%d/admin/schema", config.Port)`. -/
def schemaURL (config : DgraphConfig) : String :=
  "http://localhost:" ++ fmt.d config.Port ++ "/admin/schema"

/-- The local `url` of `DgraphDropData` and of `DgraphDropAll`:
`fmt.Sprintf("http://localhost:%d/alter", config.Port)`. -/
def alterURL (config : DgraphConfig) : String :=
  "http://localhost:" ++ fmt.d config.Port ++ "/alter"

/-- The loop `for i := 0; i < 30; i++` of `DgraphLoadSchema`, with `n` iterations left at
index `i`; `post i` is what the POST of iteration `i` returns. -/
def loadSchemaLoop (url schema : String) (post : Nat → PostResult) : Nat → Nat → List Event
  | 0, _ => []
  | n + 1, i =>
    Event.httpPost url "text/plain" schema ::
      match post i with
      | PostResult.err => [Event.failNow]
      | PostResult.resp status body =>
        if status ≠ http.StatusOK then [Event.failNow]
        else
          match body with
          | none => [Event.failNow]
          | some r =>
            if r.Data.Code = "Success" then [Event.sleep (500 * time.Millisecond)]
            else
              match r.Errors with
              | e :: _ =>
                if strings.Contains e.Message "not ready" then
                  Event.sleep time.Second :: loadSchemaLoop url schema post n (i + 1)
                else [Event.error e.Message]
              | [] =>
                Event.logUnexpected r :: Event.sleep time.Second ::
                  loadSchemaLoop url schema post n (i + 1)

/-- `DgraphLoadSchema`. -/
def DgraphLoadSchema (config : DgraphConfig) (schema : String) (post : Nat → PostResult) :
    List Event :=
  Event.log "Loading schema" ::
    loadSchemaLoop (schemaURL config) schema post 30 0

/-- The body `DgraphDropData` posts: the Go literal `"{\"drop_op\": \"DATA\"}}"`. -/
def dropDataBody : String := "\x7b\"drop_op\": \"DATA\"\x7d\x7d"

/-- The body `DgraphDropAll` posts: the Go literal `"{\"drop_all\": true}}"`. -/
def dropAllBody : String := "\x7b\"drop_all\": true\x7d\x7d"

/-- `DgraphDropData`; `reply` is what its one POST returns. -/
def DgraphDropData (config : DgraphConfig) (reply : PostResult) : List Event :=
  Event.httpPost (alterURL config) "text/plain" dropDataBody ::
    match reply with
    | PostResult.err => [Event.failNow]
    | PostResult.resp status body =>
      if status ≠ http.StatusOK then [Event.failNow]
      else
        match body with
        | none => [Event.failNow]
        | some opUpdateResponse =>
          if "Success" = opUpdateResponse.Data.Code then [] else [Event.failNow]

/-- `DgraphDropAll`; `reply` is what its one POST returns. -/
def DgraphDropAll (config : DgraphConfig) (reply : PostResult) : List Event :=
  Event.httpPost (alterURL config) "text/plain" dropAllBody ::
    match reply with
    | PostResult.err => [Event.failNow]
    | PostResult.resp status body =>
      if status ≠ http.StatusOK then [Event.failNow]
      else
        match body with
        | none => [Event.failNow]
        | some opUpdateResponse =>
          if "Success" = opUpdateResponse.Data.Code then [] else [Event.failNow]

/-! ## Observations on traces -/

/-- The number of POST requests of a trace. -/
def postCount : List Event → Nat
  | [] => 0
  | Event.httpPost _ _ _ :: t => postCount t + 1
  | _ :: t => postCount t

/-- The number of GET requests of a trace. -/
def getCount : List Event → Nat
  | [] => 0
  | Event.httpGet _ :: t => getCount t + 1
  | _ :: t => getCount t

/-- The time slept over a trace, in nanoseconds. -/
def totalSleep : List Event → Nat
  | [] => 0
  | Event.sleep d :: t => d + totalSleep t
  | _ :: t => totalSleep t

/-- The messages handed to `t.Error`, in order. -/
def reported : List Event → List String
  | [] => []
  | Event.error msg :: t => msg :: reported t
  | _ :: t => reported t

/-- A `require` assertion failed in the trace. -/
def fatal (tr : List Event) : Bool := tr.contains Event.failNow

/-- The trace marks the test as failed: by `t.Error` or by a failed `require`. -/
def failed (tr : List Event) : Bool := fatal tr || !(reported tr).isEmpty

/-- The events of one iteration of the loop of `DgraphLoadSchema` that follow its POST. -/
def replyEvents : PostResult → List Event
  | PostResult.err => [Event.failNow]
  | PostResult.resp status body =>
    if status ≠ http.StatusOK then [Event.failNow]
    else
      match body with
      | none => [Event.failNow]
      | some r =>
        if r.Data.Code = "Success" then [Event.sleep (500 * time.Millisecond)]
        else
          match r.Errors with
          | e :: _ =>
            if strings.Contains e.Message "not ready" then [Event.sleep time.Second]
            else [Event.error e.Message]
          | [] => [Event.logUnexpected r, Event.sleep time.Second]

/-- The loop of `DgraphLoadSchema` goes on to its next iteration after this reply. -/
def retries : PostResult → Bool
  | PostResult.err => false
  | PostResult.resp status body =>
    if status ≠ http.StatusOK then false
    else
      match body with
      | none => false
      | some r =>
        if r.Data.Code = "Success" then false
        else
          match r.Errors with
          | e :: _ => strings.Contains e.Message "not ready"
          | [] => true

/-- The events of `m` consecutive iterations of the loop of `DgraphLoadSchema`, from index `i`. -/
def attemptsTrace (url schema : String) (post : Nat → PostResult) : Nat → Nat → List Event
  | 0, _ => []
  | m + 1, i =>
    Event.httpPost url "text/plain" schema ::
      (replyEvents (post i) ++ attemptsTrace url schema post m (i + 1))

/-- The test `err == nil && resp.StatusCode == http.StatusOK` of the loop of `DgraphStart`. -/
def isReady : GetResult → Bool
  | GetResult.resp status => decide (status = http.StatusOK)
  | GetResult.err => false

/-! ## JSON text, for the statements on request bodies -/

namespace json

/-- The insignificant whitespace of JSON: space, tab, line feed, carriage return. -/
def isSpace (c : Char) : Bool :=
  c = Char.ofNat 32 || c = Char.ofNat 9 || c = Char.ofNat 10 || c = Char.ofNat 13

/-- Drops the whitespace that stands outside string literals; the flags say that the scan is
inside a string literal, and right after a backslash there. -/
def compactChars : Bool → Bool → List Char → List Char
  | _, _, [] => []
  | false, _, c :: cs =>
    if isSpace c then compactChars false false cs
    else c :: compactChars (decide (c = Char.ofNat 34)) false cs
  | true, true, c :: cs => c :: compactChars true false cs
  | true, false, c :: cs =>
    c :: compactChars (decide (c ≠ Char.ofNat 34)) (decide (c = Char.ofNat 92)) cs

/-- A JSON text without its insignificant whitespace. -/
def compact (s : String) : String := String.mk (compactChars false false s.data)

/-- The number of braces left open after the text, counting the braces outside string
literals; `none` when a closing brace has no opening brace before it. -/
def braceDepth : Bool → Bool → Nat → List Char → Option Nat
  | _, _, depth, [] => some depth
  | false, _, depth, c :: cs =>
    if c = Char.ofNat 123 then braceDepth false false (depth + 1) cs
    else if c = Char.ofNat 125 then
      match depth with
      | 0 => none
      | depth + 1 => braceDepth false false depth cs
    else braceDepth (decide (c = Char.ofNat 34)) false depth cs
  | true, true, depth, _ :: cs => braceDepth true false depth cs
  | true, false, depth, c :: cs =>
    braceDepth (decide (c ≠ Char.ofNat 34)) (decide (c = Char.ofNat 92)) depth cs

/-- Every brace outside a string literal has its partner. -/
def bracesBalanced (s : String) : Bool := braceDepth false false 0 s.data = some 0

end json

/-! ## Sample inputs -/

/-- A handle on port 8080. -/
def sampleConfig : DgraphConfig := { Port := 8080, ContainerID := "c0ffee" }

/-- A decoded reply without a code, whose one error says that the server is not ready. -/
def notReadyResponse : dgraphUpdateResponse :=
  { Data := { Code := "", Message := "" },
    Errors := [{ Message := "Unavailable: Server not ready." }] }

/-- A decoded reply without a code, whose one error does not say "not ready". -/
def boomResponse : dgraphUpdateResponse :=
  { Data := { Code := "", Message := "" }, Errors := [{ Message := "boom" }] }

/-- A reply whose first error says "not ready" and whose second error does not. -/
def notReadyThenBoom : dgraphUpdateResponse :=
  { Data := { Code := "", Message := "" },
    Errors := [{ Message := "Unavailable: Server not ready." }, { Message := "boom" }] }

/-- A reply whose first error does not say "not ready" and whose second error does. -/
def boomThenNotReady : dgraphUpdateResponse :=
  { Data := { Code := "", Message := "" },
    Errors := [{ Message := "boom" }, { Message := "Unavailable: Server not ready." }] }

/-- A reply with the code "Success" and a populated errors list. -/
def successWithErrors : dgraphUpdateResponse :=
  { Data := { Code := "Success", Message := "Done" }, Errors := [{ Message := "boom" }] }

/-- An outside world in which port 5000 is free, Docker creates and starts the container
`c0ffee`, and the instance answers the GETs by `get`. -/
def sampleStartEnv (get : Nat → GetResult) : StartEnv :=
  { net := { resolveTCPAddr := true, listenTCP := some 5000 },
    newClient := true,
    containerCreate := some "c0ffee",
    containerStart := true,
    get := get }

/-! ## Trace observations: algebra -/

theorem postCount_append (a b : List Event) : postCount (a ++ b) = postCount a + postCount b := by
  induction a with
  | nil => simp [postCount]
  | cons e t ih => cases e <;> simp [postCount, ih]; omega

theorem totalSleep_append (a b : List Event) :
    totalSleep (a ++ b) = totalSleep a + totalSleep b := by
  induction a with
  | nil => simp [totalSleep]
  | cons e t ih => cases e <;> simp [totalSleep, ih]; omega

theorem reported_append (a b : List Event) : reported (a ++ b) = reported a ++ reported b := by
  induction a with
  | nil => simp [reported]
  | cons e t ih => cases e <;> simp [reported, ih]

theorem fatal_append (a b : List Event) : fatal (a ++ b) = (fatal a || fatal b) := by
  simp [fatal, List.contains_eq_any_beq]

theorem failed_append_false {a b : List Event} (ha : failed a = false) (hb : failed b = false) :
    failed (a ++ b) = false := by
  simp only [failed, Bool.or_eq_false_iff, fatal_append, reported_append] at *
  obtain ⟨ha1, ha2⟩ := ha
  obtain ⟨hb1, hb2⟩ := hb
  refine ⟨⟨ha1, hb1⟩, ?_⟩
  simp only [Bool.not_eq_false', List.isEmpty_iff] at *
  simp [ha2, hb2]

theorem mem_dropLast_cons {α : Type} {x a : α} {l : List α} (h : x ∈ (a :: l).dropLast) :
    x = a ∨ x ∈ l.dropLast := by
  cases l with
  | nil => simp at h
  | cons b t => simpa using h

theorem second_ne_settle : time.Second ≠ 500 * time.Millisecond := by decide

/-! ## The loop of `DgraphLoadSchema` -/

theorem loadSchemaLoop_succ (url schema : String) (post : Nat → PostResult) (n i : Nat) :
    loadSchemaLoop url schema post (n + 1) i =
      Event.httpPost url "text/plain" schema ::
        (replyEvents (post i) ++
          if retries (post i) = true then loadSchemaLoop url schema post n (i + 1) else []) := by
  rw [loadSchemaLoop]
  congr 1
  cases h : post i with
  | err => simp [replyEvents, retries]
  | resp status body =>
    by_cases hs : status = http.StatusOK
    · cases body with
      | none => simp [replyEvents, retries, hs]
      | some r =>
        by_cases hc : r.Data.Code = "Success"
        · simp [replyEvents, retries, hs, hc]
        · cases he : r.Errors with
          | nil => simp [replyEvents, retries, hs, hc, he]
          | cons e es =>
            by_cases hn : strings.Contains e.Message "not ready" = true
            · simp [replyEvents, retries, hs, hc, he, hn]
            · simp [replyEvents, retries, hs, hc, he, hn]
    · simp [replyEvents, retries, hs]

theorem postCount_replyEvents (r : PostResult) : postCount (replyEvents r) = 0 := by
  unfold replyEvents
  repeat' split
  all_goals simp [postCount]

theorem failed_replyEvents_of_retries {r : PostResult} (h : retries r = true) :
    failed (replyEvents r) = false := by
  unfold retries at h
  unfold replyEvents
  repeat' split at h
  all_goals first
    | contradiction
    | (simp_all [failed, fatal, reported])

theorem replyEvents_success {r : dgraphUpdateResponse} (h : r.Data.Code = "Success") :
    replyEvents (PostResult.resp http.StatusOK (some r)) = [Event.sleep (500 * time.Millisecond)] ∧
      retries (PostResult.resp http.StatusOK (some r)) = false := by
  simp [replyEvents, retries, h]

theorem replyEvents_notReady {r : dgraphUpdateResponse} {e : dgraphUpdateError}
    {es : List dgraphUpdateError} (hc : r.Data.Code ≠ "Success") (he : r.Errors = e :: es)
    (hn : strings.Contains e.Message "not ready" = true) :
    replyEvents (PostResult.resp http.StatusOK (some r)) = [Event.sleep time.Second] ∧
      retries (PostResult.resp http.StatusOK (some r)) = true := by
  simp [replyEvents, retries, hc, he, hn]

theorem replyEvents_otherError {r : dgraphUpdateResponse} {e : dgraphUpdateError}
    {es : List dgraphUpdateError} (hc : r.Data.Code ≠ "Success") (he : r.Errors = e :: es)
    (hn : strings.Contains e.Message "not ready" = false) :
    replyEvents (PostResult.resp http.StatusOK (some r)) = [Event.error e.Message] ∧
      retries (PostResult.resp http.StatusOK (some r)) = false := by
  simp [replyEvents, retries, hc, he, hn]

theorem replyEvents_unexpected {r : dgraphUpdateResponse} (hc : r.Data.Code ≠ "Success")
    (he : r.Errors = []) :
    replyEvents (PostResult.resp http.StatusOK (some r)) =
        [Event.logUnexpected r, Event.sleep time.Second] ∧
      retries (PostResult.resp http.StatusOK (some r)) = true := by
  simp [replyEvents, retries, hc, he]

theorem replyEvents_fatal {reply : PostResult}
    (h : reply = PostResult.err ∨
      (∃ status body, reply = PostResult.resp status body ∧ status ≠ http.StatusOK) ∨
      reply = PostResult.resp http.StatusOK none) :
    replyEvents reply = [Event.failNow] ∧ retries reply = false := by
  rcases h with h | ⟨status, body, h, hs⟩ | h
  · simp [h, replyEvents, retries]
  · simp [h, replyEvents, retries, hs]
  · simp [h, replyEvents, retries]

theorem replyEvents_cases (reply : PostResult) :
    (retries reply = true ∧
        (replyEvents reply = [Event.sleep time.Second] ∨
          ∃ r, replyEvents reply = [Event.logUnexpected r, Event.sleep time.Second])) ∨
      (retries reply = false ∧
        (replyEvents reply = [Event.failNow] ∨
          replyEvents reply = [Event.sleep (500 * time.Millisecond)] ∨
          ∃ msg, replyEvents reply = [Event.error msg])) := by
  cases reply with
  | err => simp [replyEvents, retries]
  | resp status body =>
    by_cases hs : status = http.StatusOK
    · subst hs
      cases body with
      | none => simp [replyEvents, retries]
      | some r =>
        by_cases hc : r.Data.Code = "Success"
        · simp [(replyEvents_success hc).1, (replyEvents_success hc).2]
        · cases he : r.Errors with
          | nil =>
            simp [(replyEvents_unexpected hc he).1, (replyEvents_unexpected hc he).2]
          | cons e es =>
            by_cases hn : strings.Contains e.Message "not ready" = true
            · simp [(replyEvents_notReady hc he hn).1, (replyEvents_notReady hc he hn).2]
            · have hn2 : strings.Contains e.Message "not ready" = false := by simpa using hn
              simp [(replyEvents_otherError hc he hn2).1, (replyEvents_otherError hc he hn2).2]
    · simp [replyEvents, retries, hs]

theorem postCount_attemptsTrace (url schema : String) (post : Nat → PostResult) :
    ∀ m i : Nat, postCount (attemptsTrace url schema post m i) = m := by
  intro m
  induction m with
  | zero => intro i; simp [attemptsTrace, postCount]
  | succ m ih =>
    intro i
    simp [attemptsTrace, postCount, postCount_append, postCount_replyEvents, ih]

theorem failed_attemptsTrace (url schema : String) (post : Nat → PostResult) :
    ∀ m i : Nat, (∀ j, j < m → retries (post (i + j)) = true) →
      failed (attemptsTrace url schema post m i) = false := by
  intro m
  induction m with
  | zero => intro i _; simp [attemptsTrace, failed, fatal, reported]
  | succ m ih =>
    intro i h
    have h0 : retries (post i) = true := by simpa using h 0 (Nat.succ_pos m)
    have hrest : failed (attemptsTrace url schema post m (i + 1)) = false := by
      apply ih
      intro j hj
      have := h (j + 1) (Nat.succ_lt_succ hj)
      rwa [show i + (j + 1) = i + 1 + j by omega] at this
    have hcons : failed [Event.httpPost url "text/plain" schema] = false := by
      simp [failed, fatal, reported]
    have := failed_append_false hcons
      (failed_append_false (failed_replyEvents_of_retries h0) hrest)
    simpa [attemptsTrace] using this

theorem postCount_loadSchemaLoop_le (url schema : String) (post : Nat → PostResult) :
    ∀ n i : Nat, postCount (loadSchemaLoop url schema post n i) ≤ n := by
  intro n
  induction n with
  | zero => intro i; simp [loadSchemaLoop, postCount]
  | succ n ih =>
    intro i
    rw [loadSchemaLoop_succ]
    simp only [postCount, postCount_append, postCount_replyEvents]
    split
    · have := ih (i + 1); omega
    · simp [postCount]

/-- When more than `m` POSTs are made, the first `m` replies all led to a retry, and the trace
is the trace of these `m` iterations followed by the rest of the loop. -/
theorem loadSchemaLoop_reach (url schema : String) (post : Nat → PostResult) :
    ∀ m n i : Nat, m < postCount (loadSchemaLoop url schema post n i) →
      m < n ∧ (∀ j, j < m → retries (post (i + j)) = true) ∧
      loadSchemaLoop url schema post n i =
        attemptsTrace url schema post m i ++ loadSchemaLoop url schema post (n - m) (i + m) := by
  intro m
  induction m with
  | zero =>
    intro n i h
    refine ⟨?_, ?_, ?_⟩
    · have := postCount_loadSchemaLoop_le url schema post n i; omega
    · intro j hj; omega
    · simp [attemptsTrace]
  | succ m ih =>
    intro n i h
    cases n with
    | zero => simp [loadSchemaLoop, postCount] at h
    | succ n =>
      rw [loadSchemaLoop_succ] at h ⊢
      simp only [postCount, postCount_append, postCount_replyEvents] at h
      by_cases hr : retries (post i) = true
      · simp only [hr, if_true] at h ⊢
        have h2 : m < postCount (loadSchemaLoop url schema post n (i + 1)) := by omega
        obtain ⟨hlt, hall, heq⟩ := ih n (i + 1) h2
        refine ⟨by omega, ?_, ?_⟩
        · intro j hj
          cases j with
          | zero => simpa using hr
          | succ j =>
            have := hall j (by omega)
            rwa [show i + 1 + j = i + (j + 1) by omega] at this
        · rw [heq]
          simp [attemptsTrace, show i + 1 + m = i + (m + 1) by omega]
      · simp [hr, postCount] at h

/-- The trace of `DgraphLoadSchema` around its `k`-th POST, when it makes one: a failure-free
prefix with `k - 1` POSTs, the POST, the events its reply causes, and the later iterations. -/
theorem DgraphLoadSchema_attempt (config : DgraphConfig) (schema : String)
    (post : Nat → PostResult) (k : Nat) (hk : 1 ≤ k)
    (hreach : k ≤ postCount (DgraphLoadSchema config schema post)) :
    k ≤ 30 ∧ ∃ pre : List Event, postCount pre = k - 1 ∧ failed pre = false ∧
      DgraphLoadSchema config schema post =
        pre ++ Event.httpPost (schemaURL config) "text/plain" schema ::
          (replyEvents (post (k - 1)) ++
            if retries (post (k - 1)) = true then
              loadSchemaLoop (schemaURL config) schema post (30 - k) k
            else []) := by
  obtain ⟨m, rfl⟩ : ∃ m, k = m + 1 := ⟨k - 1, by omega⟩
  have hcount : postCount (DgraphLoadSchema config schema post) =
      postCount (loadSchemaLoop (schemaURL config) schema post 30 0) := rfl
  rw [hcount] at hreach
  obtain ⟨hlt, hall, heq⟩ := loadSchemaLoop_reach (schemaURL config) schema post m 30 0 hreach
  refine ⟨by omega, ?_⟩
  refine ⟨Event.log "Loading schema" :: attemptsTrace (schemaURL config) schema post m 0,
    ?_, ?_, ?_⟩
  · simp [postCount, postCount_attemptsTrace]
  · have h1 : failed [Event.log "Loading schema"] = false := by simp [failed, fatal, reported]
    have := failed_append_false h1
      (failed_attemptsTrace (schemaURL config) schema post m 0 hall)
    simpa using this
  · obtain ⟨n, hn⟩ : ∃ n, 30 - m = n + 1 := ⟨30 - m - 1, by omega⟩
    rw [DgraphLoadSchema, heq, hn, loadSchemaLoop_succ]
    simp [show 30 - (m + 1) = n by omega]

theorem loadSchemaLoop_allNotReady (url schema : String) (post : Nat → PostResult) :
    ∀ n i : Nat, (∀ j, i ≤ j → j < i + n → ∃ r e es, post j = PostResult.resp http.StatusOK (some r) ∧
        r.Data.Code ≠ "Success" ∧ r.Errors = e :: es ∧
        strings.Contains e.Message "not ready" = true) →
      loadSchemaLoop url schema post n i =
        (List.replicate n
          [Event.httpPost url "text/plain" schema, Event.sleep time.Second]).flatten := by
  intro n
  induction n with
  | zero => intro i _; simp [loadSchemaLoop]
  | succ n ih =>
    intro i h
    obtain ⟨r, e, es, hp, hc, he, hn⟩ := h i (Nat.le_refl i) (by omega)
    obtain ⟨hev, hret⟩ := replyEvents_notReady hc he hn
    rw [loadSchemaLoop_succ, hp, hev, hret, ih (i + 1) (fun j h1 h2 => h j (by omega) (by omega))]
    simp [List.replicate_succ]

theorem postCount_notReadyTrace (url schema : String) (n : Nat) :
    postCount (List.replicate n
      [Event.httpPost url "text/plain" schema, Event.sleep time.Second]).flatten = n := by
  induction n with
  | zero => simp [postCount]
  | succ n ih => simp [List.replicate_succ, postCount, ih]

theorem totalSleep_notReadyTrace (url schema : String) (n : Nat) :
    totalSleep (List.replicate n
      [Event.httpPost url "text/plain" schema, Event.sleep time.Second]).flatten =
        n * time.Second := by
  induction n with
  | zero => simp [totalSleep]
  | succ n ih => simp [List.replicate_succ, totalSleep, ih, Nat.succ_mul, Nat.add_comm]

theorem failed_notReadyTrace (url schema : String) (n : Nat) :
    failed (List.replicate n
      [Event.httpPost url "text/plain" schema, Event.sleep time.Second]).flatten = false := by
  induction n with
  | zero => simp [failed, fatal, reported]
  | succ n ih =>
    rw [List.replicate_succ, List.flatten_cons]
    exact failed_append_false (by simp [failed, fatal, reported]) ih

/-- The sleeps of the loop of `DgraphLoadSchema` with `n` iterations left. -/
theorem loadSchemaLoop_sleeps (url schema : String) (post : Nat → PostResult) :
    ∀ n i : Nat,
      totalSleep (loadSchemaLoop url schema post n i) ≤ n * time.Second ∧
      (∀ d, Event.sleep d ∈ loadSchemaLoop url schema post n i →
        d = time.Second ∨ d = 500 * time.Millisecond) ∧
      List.count (Event.sleep (500 * time.Millisecond)) (loadSchemaLoop url schema post n i) ≤ 1 ∧
      Event.sleep (500 * time.Millisecond) ∉ (loadSchemaLoop url schema post n i).dropLast := by
  intro n
  induction n with
  | zero => intro i; simp [loadSchemaLoop, totalSleep]
  | succ n ih =>
    intro i
    obtain ⟨ih1, ih2, ih3, ih4⟩ := ih (i + 1)
    have hne := second_ne_settle
    have hsec : (500 : Nat) * time.Millisecond ≤ time.Second := by decide
    have hmul : (n + 1) * time.Second = n * time.Second + time.Second := Nat.succ_mul n _
    rw [loadSchemaLoop_succ]
    rcases replyEvents_cases (post i) with ⟨hr, hev | ⟨r, hev⟩⟩ | ⟨hr, hev | hev | ⟨msg, hev⟩⟩
    · rw [hr, hev]
      simp only [if_true, List.cons_append, List.nil_append]
      refine ⟨?_, ?_, ?_, ?_⟩
      · simp only [totalSleep]; omega
      · intro d hd
        simp only [List.mem_cons, Event.sleep.injEq, reduceCtorEq, false_or] at hd
        rcases hd with hd | hd
        · exact Or.inl hd
        · exact ih2 d hd
      · simpa [List.count_cons, hne] using ih3
      · intro hmem
        rcases mem_dropLast_cons hmem with h | h
        · cases h
        · rcases mem_dropLast_cons h with h | h
          · simp only [Event.sleep.injEq] at h; exact hne h.symm
          · exact ih4 h
    · rw [hr, hev]
      simp only [if_true, List.cons_append, List.nil_append]
      refine ⟨?_, ?_, ?_, ?_⟩
      · simp only [totalSleep]; omega
      · intro d hd
        simp only [List.mem_cons, Event.sleep.injEq, reduceCtorEq, false_or] at hd
        rcases hd with hd | hd
        · exact Or.inl hd
        · exact ih2 d hd
      · simpa [List.count_cons, hne] using ih3
      · intro hmem
        rcases mem_dropLast_cons hmem with h | h
        · cases h
        · rcases mem_dropLast_cons h with h | h
          · cases h
          · rcases mem_dropLast_cons h with h | h
            · simp only [Event.sleep.injEq] at h; exact hne h.symm
            · exact ih4 h
    · rw [hr, hev]
      simp [totalSleep, List.count_cons]
    · rw [hr, hev]
      refine ⟨?_, ?_, ?_, ?_⟩
      · simp only [Bool.false_eq_true, if_false, List.append_nil, totalSleep]
        omega
      · simp
      · simp [List.count_cons]
      · simp
    · rw [hr, hev]
      simp [totalSleep, List.count_cons]

/-- The trace depends only on the replies to the POSTs that are made. -/
theorem loadSchemaLoop_congr (url schema : String) (post post2 : Nat → PostResult) :
    ∀ n i : Nat,
      (∀ t, t < postCount (loadSchemaLoop url schema post n i) → post2 (i + t) = post (i + t)) →
      loadSchemaLoop url schema post2 n i = loadSchemaLoop url schema post n i := by
  intro n
  induction n with
  | zero => intro i _; simp [loadSchemaLoop]
  | succ n ih =>
    intro i h
    rw [loadSchemaLoop_succ] at h
    simp only [postCount, postCount_append, postCount_replyEvents] at h
    have h0 : post2 i = post i := by simpa using h 0 (by omega)
    rw [loadSchemaLoop_succ, loadSchemaLoop_succ, h0]
    by_cases hr : retries (post i) = true
    · simp only [hr, if_true] at h ⊢
      rw [ih (i + 1)]
      intro t ht
      have := h (t + 1) (by omega)
      rwa [show i + (t + 1) = i + 1 + t by omega] at this
    · simp [hr]

/-! ## The loop of `DgraphStart` -/

theorem readinessLoop_succ (url : String) (get : Nat → GetResult) (n i : Nat) :
    readinessLoop url get (n + 1) i =
      Event.httpGet url ::
        if isReady (get i) = true then []
        else Event.sleep time.Second :: readinessLoop url get n (i + 1) := by
  rw [readinessLoop]
  cases h : get i with
  | err => simp [isReady]
  | resp status => by_cases hs : status = http.StatusOK <;> simp [isReady, hs]

theorem isReady_iff (g : GetResult) : isReady g = true ↔ g = GetResult.resp http.StatusOK := by
  cases g with
  | err => simp [isReady]
  | resp status => simp [isReady]

theorem getCount_readinessLoop_le (url : String) (get : Nat → GetResult) :
    ∀ n i : Nat, getCount (readinessLoop url get n i) ≤ n := by
  intro n
  induction n with
  | zero => intro i; simp [readinessLoop, getCount]
  | succ n ih =>
    intro i
    rw [readinessLoop_succ]
    split
    · simp [getCount]
    · have := ih (i + 1)
      simp only [getCount]
      omega

/-- The loop stops at the first ready outcome, or after its `n` iterations. -/
theorem getCount_readinessLoop_first (url : String) (get : Nat → GetResult) :
    ∀ n i j : Nat, isReady (get (i + j)) = true →
      (∀ t, t < j → isReady (get (i + t)) = false) →
      getCount (readinessLoop url get n i) = min n (j + 1) := by
  intro n
  induction n with
  | zero => intro i j _ _; simp [readinessLoop, getCount]
  | succ n ih =>
    intro i j hj hbefore
    rw [readinessLoop_succ]
    cases j with
    | zero =>
      have h0 : isReady (get i) = true := by simpa using hj
      simp [h0, getCount]
    | succ j =>
      have h0 : isReady (get i) = false := by simpa using hbefore 0 (Nat.succ_pos j)
      have hrec := ih (i + 1) j (by rwa [show i + 1 + j = i + (j + 1) by omega])
        (fun t ht => by
          have := hbefore (t + 1) (by omega)
          rwa [show i + (t + 1) = i + 1 + t by omega] at this)
      simp only [h0, Bool.false_eq_true, if_false, getCount, hrec]
      omega

theorem getCount_readinessLoop_none (url : String) (get : Nat → GetResult) :
    ∀ n i : Nat, (∀ t, t < n → isReady (get (i + t)) = false) →
      getCount (readinessLoop url get n i) = n := by
  intro n
  induction n with
  | zero => intro i _; simp [readinessLoop, getCount]
  | succ n ih =>
    intro i h
    have h0 : isReady (get i) = false := by simpa using h 0 (Nat.succ_pos n)
    have hrec := ih (i + 1) (fun t ht => by
      have := h (t + 1) (by omega)
      rwa [show i + (t + 1) = i + 1 + t by omega] at this)
    rw [readinessLoop_succ]
    simp [h0, getCount, hrec]

/-- The trace of the loop: per GET issued, the GET, and a sleep of one second unless the
outcome is ready. -/
theorem readinessLoop_trace (url : String) (get : Nat → GetResult) :
    ∀ n i : Nat, readinessLoop url get n i =
      (List.range' i (getCount (readinessLoop url get n i))).flatMap
        (fun t => Event.httpGet url ::
          if get t = GetResult.resp http.StatusOK then [] else [Event.sleep time.Second]) := by
  intro n
  induction n with
  | zero => intro i; simp [readinessLoop, getCount]
  | succ n ih =>
    intro i
    rw [readinessLoop_succ]
    by_cases h0 : isReady (get i) = true
    · have hg := (isReady_iff (get i)).mp h0
      rw [if_pos h0]
      simp [hg, getCount]
    · have hg : ¬ get i = GetResult.resp http.StatusOK := fun h => h0 ((isReady_iff _).mpr h)
      simp only [h0, if_false, getCount, List.range'_succ, List.flatMap_cons, hg,
        List.cons_append, List.nil_append, Bool.false_eq_true]
      rw [← ih (i + 1)]

theorem failed_readinessLoop (url : String) (get : Nat → GetResult) :
    ∀ n i : Nat, failed (readinessLoop url get n i) = false := by
  intro n
  induction n with
  | zero => intro i; simp [readinessLoop, failed, fatal, reported]
  | succ n ih =>
    intro i
    rw [readinessLoop_succ]
    split
    · simp [failed, fatal, reported]
    · have h2 : failed [Event.httpGet url, Event.sleep time.Second] = false := by
        simp [failed, fatal, reported]
      exact failed_append_false h2 (ih (i + 1))

/-! ## Claims on `DgraphLoadSchema` -/

/-- C1. Retry bound: when each of the 30 replies to the schema POST is HTTP 200 with a
decodable body whose `Data.Code` is not "Success" and whose error message (the first entry of
its errors list) contains "not ready", the trace of `DgraphLoadSchema` is its log line followed
by 30 times a POST and a sleep of one second: exactly 30 POSTs, one second slept after each of
them, 30 seconds slept in all, and the test not marked failed, neither by `t.Error` nor by a
`require`. -/
theorem C1_retry_bound (config : DgraphConfig) (schema : String) (post : Nat → PostResult)
    (hreplies : ∀ i, i < 30 → ∃ r e es, post i = PostResult.resp http.StatusOK (some r) ∧
      r.Data.Code ≠ "Success" ∧ r.Errors = e :: es ∧
      strings.Contains e.Message "not ready" = true) :
    DgraphLoadSchema config schema post =
        Event.log "Loading schema" ::
          (List.replicate 30 [Event.httpPost (schemaURL config) "text/plain" schema,
            Event.sleep time.Second]).flatten ∧
      postCount (DgraphLoadSchema config schema post) = 30 ∧
      totalSleep (DgraphLoadSchema config schema post) = 30 * time.Second ∧
      fatal (DgraphLoadSchema config schema post) = false ∧
      reported (DgraphLoadSchema config schema post) = [] ∧
      failed (DgraphLoadSchema config schema post) = false := by
  have heq : DgraphLoadSchema config schema post =
      Event.log "Loading schema" ::
        (List.replicate 30 [Event.httpPost (schemaURL config) "text/plain" schema,
          Event.sleep time.Second]).flatten := by
    rw [DgraphLoadSchema, loadSchemaLoop_allNotReady (schemaURL config) schema post 30 0
      (fun j _ h2 => hreplies j (by omega))]
  have hfailed : failed (DgraphLoadSchema config schema post) = false := by
    rw [heq]
    have hlog : failed [Event.log "Loading schema"] = false := by simp [failed, fatal, reported]
    exact failed_append_false hlog (failed_notReadyTrace (schemaURL config) schema 30)
  refine ⟨heq, ?_, ?_, ?_, ?_, hfailed⟩
  · rw [heq]; exact postCount_notReadyTrace (schemaURL config) schema 30
  · rw [heq]; exact totalSleep_notReadyTrace (schemaURL config) schema 30
  · simp only [failed, Bool.or_eq_false_iff] at hfailed; exact hfailed.1
  · simp only [failed, Bool.or_eq_false_iff, Bool.not_eq_false', List.isEmpty_iff] at hfailed
    exact hfailed.2

/-- C1, at an instance: every reply is HTTP 200 with the one error "Unavailable: Server not
ready." -/
theorem C1_retry_bound_witness :
    postCount (DgraphLoadSchema sampleConfig "type User"
        (fun _ => PostResult.resp 200 (some notReadyResponse))) = 30 ∧
      totalSleep (DgraphLoadSchema sampleConfig "type User"
        (fun _ => PostResult.resp 200 (some notReadyResponse))) = 30 * time.Second ∧
      failed (DgraphLoadSchema sampleConfig "type User"
        (fun _ => PostResult.resp 200 (some notReadyResponse))) = false :=
  have h := C1_retry_bound sampleConfig "type User"
    (fun _ => PostResult.resp 200 (some notReadyResponse))
    (fun _ _ => ⟨notReadyResponse, { Message := "Unavailable: Server not ready." }, [], rfl,
      by decide, rfl, by decide⟩)
  ⟨h.2.1, h.2.2.1, h.2.2.2.2.2⟩

/-- C2 as stated fails, at two replies.  The errors list of `notReadyThenBoom` contains the
message "boom", which does not contain "not ready", yet against an instance that always gives
this reply 30 POSTs are made and nothing is reported.  The errors list of `successWithErrors`
contains "boom" too, yet one POST is made and the test is not marked failed. -/
theorem C2_counterexample :
    ((∃ e ∈ notReadyThenBoom.Errors,
          e.Message = "boom" ∧ strings.Contains e.Message "not ready" = false) ∧
        postCount (DgraphLoadSchema sampleConfig "type User"
          (fun _ => PostResult.resp 200 (some notReadyThenBoom))) = 30 ∧
        reported (DgraphLoadSchema sampleConfig "type User"
          (fun _ => PostResult.resp 200 (some notReadyThenBoom))) = []) ∧
      ((∃ e ∈ successWithErrors.Errors,
          e.Message = "boom" ∧ strings.Contains e.Message "not ready" = false) ∧
        postCount (DgraphLoadSchema sampleConfig "type User"
          (fun _ => PostResult.resp 200 (some successWithErrors))) = 1 ∧
        failed (DgraphLoadSchema sampleConfig "type User"
          (fun _ => PostResult.resp 200 (some successWithErrors))) = false) := by
  refine ⟨⟨⟨{ Message := "boom" }, by decide, rfl, by decide⟩, by decide, by decide⟩,
    ⟨⟨{ Message := "boom" }, by decide, rfl, by decide⟩, by decide, by decide⟩⟩

/-- C2, as amended. Immediate failure on a non-retryable error: when the first reply is
HTTP 200 and decodes with a `Data.Code` other than "Success" and an errors list whose first
message does not contain "not ready", `DgraphLoadSchema` makes exactly one POST, hands exactly
that first message to `t.Error`, and returns. -/
theorem C2_first_error_reported (config : DgraphConfig) (schema : String)
    (post : Nat → PostResult) (r : dgraphUpdateResponse) (e : dgraphUpdateError)
    (es : List dgraphUpdateError)
    (hreply : post 0 = PostResult.resp http.StatusOK (some r))
    (hcode : r.Data.Code ≠ "Success") (herrors : r.Errors = e :: es)
    (hother : strings.Contains e.Message "not ready" = false) :
    DgraphLoadSchema config schema post =
        [Event.log "Loading schema", Event.httpPost (schemaURL config) "text/plain" schema,
          Event.error e.Message] ∧
      postCount (DgraphLoadSchema config schema post) = 1 ∧
      reported (DgraphLoadSchema config schema post) = [e.Message] ∧
      fatal (DgraphLoadSchema config schema post) = false := by
  obtain ⟨hev, hret⟩ := replyEvents_otherError hcode herrors hother
  have heq : DgraphLoadSchema config schema post =
      [Event.log "Loading schema", Event.httpPost (schemaURL config) "text/plain" schema,
        Event.error e.Message] := by
    rw [DgraphLoadSchema, loadSchemaLoop_succ, hreply, hev, hret]
    simp
  refine ⟨heq, ?_, ?_, ?_⟩ <;> rw [heq] <;> simp [postCount, reported, fatal]

/-- C2 as amended, at an instance: the first reply has the one error "boom". -/
theorem C2_first_error_reported_witness :
    postCount (DgraphLoadSchema sampleConfig "type User"
        (fun _ => PostResult.resp 200 (some boomResponse))) = 1 ∧
      reported (DgraphLoadSchema sampleConfig "type User"
        (fun _ => PostResult.resp 200 (some boomResponse))) = ["boom"] :=
  have h := C2_first_error_reported sampleConfig "type User"
    (fun _ => PostResult.resp 200 (some boomResponse)) boomResponse { Message := "boom" } []
    rfl (by decide) rfl (by decide)
  ⟨h.2.1, h.2.2.1⟩

/-- C3. Success transition: when `DgraphLoadSchema` makes a `k`-th POST and its reply is
HTTP 200 and decodes with `Data.Code == "Success"`, whatever its errors list holds, then `k`
is at most 30, exactly `k` POSTs are made, the test is not marked failed, and the events that
follow the `k`-th POST are exactly the one 500 ms sleep, after which the call returns. -/
theorem C3_success_settles (config : DgraphConfig) (schema : String) (post : Nat → PostResult)
    (k : Nat) (r : dgraphUpdateResponse) (hk : 1 ≤ k)
    (hreach : k ≤ postCount (DgraphLoadSchema config schema post))
    (hreply : post (k - 1) = PostResult.resp http.StatusOK (some r))
    (hcode : r.Data.Code = "Success") :
    k ≤ 30 ∧ postCount (DgraphLoadSchema config schema post) = k ∧
      failed (DgraphLoadSchema config schema post) = false ∧
      ∃ pre : List Event, postCount pre = k - 1 ∧
        DgraphLoadSchema config schema post =
          pre ++ [Event.httpPost (schemaURL config) "text/plain" schema,
            Event.sleep (500 * time.Millisecond)] := by
  obtain ⟨hk30, pre, hpc, hpf, heq⟩ := DgraphLoadSchema_attempt config schema post k hk hreach
  obtain ⟨hev, hret⟩ := replyEvents_success hcode
  rw [hreply, hev, hret] at heq
  simp only [Bool.false_eq_true, if_false, List.append_nil, List.singleton_append] at heq
  refine ⟨hk30, ?_, ?_, pre, hpc, heq⟩
  · rw [heq, postCount_append, hpc]
    simp only [postCount]
    omega
  · rw [heq]
    exact failed_append_false hpf (by simp [failed, fatal, reported])

/-- C3, at an instance: the first reply says "not ready", the second one is a success
with a populated errors list. -/
theorem C3_success_settles_witness :
    postCount (DgraphLoadSchema sampleConfig "type User"
        (fun i => if i = 0 then PostResult.resp 200 (some notReadyResponse)
          else PostResult.resp 200 (some successWithErrors))) = 2 ∧
      failed (DgraphLoadSchema sampleConfig "type User"
        (fun i => if i = 0 then PostResult.resp 200 (some notReadyResponse)
          else PostResult.resp 200 (some successWithErrors))) = false :=
  have h := C3_success_settles sampleConfig "type User"
    (fun i => if i = 0 then PostResult.resp 200 (some notReadyResponse)
      else PostResult.resp 200 (some successWithErrors))
    2 successWithErrors (by decide) (by decide) (by decide) (by decide)
  ⟨h.2.1, h.2.2.1⟩

/-- C4 as stated fails: the errors list of `boomThenNotReady` contains a message with the
substring "not ready" and the code is not "Success", yet after the first POST (and 1 < 30) no
further POST is made: the first message, "boom", is reported and the call returns. -/
theorem C4_counterexample :
    (∃ e ∈ boomThenNotReady.Errors, strings.Contains e.Message "not ready" = true) ∧
      boomThenNotReady.Data.Code ≠ "Success" ∧
      postCount (DgraphLoadSchema sampleConfig "type User"
        (fun _ => PostResult.resp 200 (some boomThenNotReady))) = 1 ∧
      reported (DgraphLoadSchema sampleConfig "type User"
        (fun _ => PostResult.resp 200 (some boomThenNotReady))) = ["boom"] := by
  refine ⟨⟨{ Message := "Unavailable: Server not ready." }, by decide, by decide⟩,
    by decide, by decide, by decide⟩

/-- C4, as amended. Retry condition: when `DgraphLoadSchema` makes a `k`-th POST with
`k < 30` and its reply is HTTP 200, decodes, and has a `Data.Code` other than "Success", a
further POST is made if and only if the errors list is empty or its first message contains
"not ready"; the further POST comes right after a sleep of one second, with the test not
marked failed up to there; otherwise the first message of the errors list is handed to
`t.Error` right after the `k`-th POST and the trace ends there, with exactly `k` POSTs. -/
theorem C4_retry_condition (config : DgraphConfig) (schema : String) (post : Nat → PostResult)
    (k : Nat) (r : dgraphUpdateResponse) (hk : 1 ≤ k) (hk30 : k < 30)
    (hreach : k ≤ postCount (DgraphLoadSchema config schema post))
    (hreply : post (k - 1) = PostResult.resp http.StatusOK (some r))
    (hcode : r.Data.Code ≠ "Success") :
    (k < postCount (DgraphLoadSchema config schema post) ↔
        (r.Errors = [] ∨
          ∃ e es, r.Errors = e :: es ∧ strings.Contains e.Message "not ready" = true)) ∧
      (k < postCount (DgraphLoadSchema config schema post) →
        ∃ pre rest : List Event, postCount pre = k ∧ failed pre = false ∧
          DgraphLoadSchema config schema post =
            pre ++ Event.sleep time.Second ::
              Event.httpPost (schemaURL config) "text/plain" schema :: rest) ∧
      (¬ k < postCount (DgraphLoadSchema config schema post) →
        postCount (DgraphLoadSchema config schema post) = k ∧
          ∃ (pre : List Event) (e : dgraphUpdateError) (es : List dgraphUpdateError),
            r.Errors = e :: es ∧ failed pre = false ∧
            reported (DgraphLoadSchema config schema post) = [e.Message] ∧
            DgraphLoadSchema config schema post =
              pre ++ [Event.httpPost (schemaURL config) "text/plain" schema,
                Event.error e.Message]) := by
  obtain ⟨_, pre, hpc, hpf, heq⟩ := DgraphLoadSchema_attempt config schema post k hk hreach
  obtain ⟨n, hn⟩ : ∃ n, 30 - k = n + 1 := ⟨30 - k - 1, by omega⟩
  rw [hreply, hn, loadSchemaLoop_succ] at heq
  have hpost : failed [Event.httpPost (schemaURL config) "text/plain" schema] = false := by
    simp [failed, fatal, reported]
  have hreported : reported pre = [] := by
    simp only [failed, Bool.or_eq_false_iff, Bool.not_eq_false', List.isEmpty_iff] at hpf
    exact hpf.2
  cases he : r.Errors with
  | nil =>
    obtain ⟨hev, hret⟩ := replyEvents_unexpected hcode he
    rw [hev, hret] at heq
    simp only [if_true, List.cons_append, List.nil_append] at heq
    have hlt : k < postCount (DgraphLoadSchema config schema post) := by
      rw [heq, postCount_append, hpc]
      simp only [postCount, postCount_append]
      omega
    refine ⟨⟨fun _ => Or.inl rfl, fun _ => hlt⟩, fun _ => ?_, fun h => absurd hlt h⟩
    refine ⟨pre ++ [Event.httpPost (schemaURL config) "text/plain" schema,
      Event.logUnexpected r], (replyEvents (post k) ++
        if retries (post k) = true then loadSchemaLoop (schemaURL config) schema post n (k + 1)
        else []), ?_, ?_, ?_⟩
    · rw [postCount_append, hpc]; simp only [postCount]; omega
    · exact failed_append_false hpf (by simp [failed, fatal, reported])
    · rw [heq]; simp only [List.append_assoc, List.cons_append, List.nil_append]
  | cons e es =>
    by_cases hnr : strings.Contains e.Message "not ready" = true
    · obtain ⟨hev, hret⟩ := replyEvents_notReady hcode he hnr
      rw [hev, hret] at heq
      simp only [if_true, List.cons_append, List.nil_append] at heq
      have hlt : k < postCount (DgraphLoadSchema config schema post) := by
        rw [heq, postCount_append, hpc]
        simp only [postCount, postCount_append]
        omega
      refine ⟨⟨fun _ => Or.inr ⟨e, es, rfl, hnr⟩, fun _ => hlt⟩, fun _ => ?_,
        fun h => absurd hlt h⟩
      refine ⟨pre ++ [Event.httpPost (schemaURL config) "text/plain" schema],
        (replyEvents (post k) ++
        if retries (post k) = true then loadSchemaLoop (schemaURL config) schema post n (k + 1)
        else []), ?_, ?_, ?_⟩
      · rw [postCount_append, hpc]; simp only [postCount]; omega
      · exact failed_append_false hpf hpost
      · rw [heq]; simp only [List.append_assoc, List.cons_append, List.nil_append]
    · have hnr2 : strings.Contains e.Message "not ready" = false := by simpa using hnr
      obtain ⟨hev, hret⟩ := replyEvents_otherError hcode he hnr2
      rw [hev, hret] at heq
      simp only [Bool.false_eq_true, if_false, List.append_nil, List.singleton_append] at heq
      have hcount : postCount (DgraphLoadSchema config schema post) = k := by
        rw [heq, postCount_append, hpc]
        simp only [postCount]
        omega
      refine ⟨⟨fun h => absurd hcount (by omega), fun h => ?_⟩, fun h => absurd hcount (by omega),
        fun _ => ⟨hcount, pre, e, es, rfl, hpf, ?_, heq⟩⟩
      · rcases h with h | ⟨e2, es2, h, h2⟩
        · cases h
        · simp only [List.cons.injEq] at h
          rw [← h.1] at h2
          exact absurd h2 hnr
      · rw [heq, reported_append, hreported]
        simp [reported]

/-- C4 as amended, at an instance: the first reply has the one error "Unavailable: Server not
ready.", and a second POST is made. -/
theorem C4_retry_condition_witness :
    1 < postCount (DgraphLoadSchema sampleConfig "type User"
      (fun _ => PostResult.resp 200 (some notReadyResponse))) :=
  have h := C4_retry_condition sampleConfig "type User"
    (fun _ => PostResult.resp 200 (some notReadyResponse)) 1 notReadyResponse
    (by decide) (by decide) (by decide) rfl (by decide)
  h.1.mpr (Or.inr ⟨{ Message := "Unavailable: Server not ready." }, [], rfl, by decide⟩)

/-- C9. Hard bound on a schema-load retry sequence: whatever the instance replies,
`DgraphLoadSchema` (a total function of the replies) makes at least 1 and at most 30 POSTs;
every sleep is the one-second retry sleep or the 500 ms settle sleep; the time slept sums to
at most 30 seconds; the 500 ms settle sleep occurs at most once and then only as the very
last event of the trace, hence as the last sleep; and the trace depends only on the replies
to the POSTs that are made, so a finite sequence of that many replies determines it. -/
theorem C9_schema_load_bounds (config : DgraphConfig) (schema : String)
    (post : Nat → PostResult) :
    1 ≤ postCount (DgraphLoadSchema config schema post) ∧
      postCount (DgraphLoadSchema config schema post) ≤ 30 ∧
      (∀ d, Event.sleep d ∈ DgraphLoadSchema config schema post →
        d = time.Second ∨ d = 500 * time.Millisecond) ∧
      totalSleep (DgraphLoadSchema config schema post) ≤ 30 * time.Second ∧
      List.count (Event.sleep (500 * time.Millisecond))
        (DgraphLoadSchema config schema post) ≤ 1 ∧
      Event.sleep (500 * time.Millisecond) ∉ (DgraphLoadSchema config schema post).dropLast ∧
      ∀ post2 : Nat → PostResult,
        (∀ i, i < postCount (DgraphLoadSchema config schema post) → post2 i = post i) →
        DgraphLoadSchema config schema post2 = DgraphLoadSchema config schema post := by
  obtain ⟨h1, h2, h3, h4⟩ := loadSchemaLoop_sleeps (schemaURL config) schema post 30 0
  have hcount : postCount (DgraphLoadSchema config schema post) =
      postCount (loadSchemaLoop (schemaURL config) schema post 30 0) := rfl
  have hsleep : totalSleep (DgraphLoadSchema config schema post) =
      totalSleep (loadSchemaLoop (schemaURL config) schema post 30 0) := rfl
  refine ⟨?_, ?_, ?_, ?_, ?_, ?_, ?_⟩
  · rw [hcount, loadSchemaLoop_succ]
    simp only [postCount, postCount_append]
    omega
  · rw [hcount]; exact postCount_loadSchemaLoop_le (schemaURL config) schema post 30 0
  · intro d hd
    simp only [DgraphLoadSchema, List.mem_cons, reduceCtorEq, false_or] at hd
    exact h2 d hd
  · rw [hsleep]; exact h1
  · simpa [DgraphLoadSchema, List.count_cons] using h3
  · intro hmem
    rcases mem_dropLast_cons hmem with h | h
    · cases h
    · exact h4 h
  · intro post2 hsame
    rw [hcount] at hsame
    rw [DgraphLoadSchema, DgraphLoadSchema,
      loadSchemaLoop_congr (schemaURL config) schema post post2 30 0
        (fun t ht => by rw [Nat.zero_add]; exact hsame t ht)]

/-- C10. A transport error, a status other than 200 or an undecodable body is never retried:
when `DgraphLoadSchema` makes a `k`-th POST and the POST returns an error, or a response with
a status other than 200 (whatever its body, also one whose errors say "not ready"), or a
status 200 with a body that does not decode, then a `require` fails right after that POST:
the trace ends with the POST and the fatal failure, and exactly `k` POSTs are made. -/
theorem C10_no_retry_on_transport_status_decode (config : DgraphConfig) (schema : String)
    (post : Nat → PostResult) (k : Nat) (hk : 1 ≤ k)
    (hreach : k ≤ postCount (DgraphLoadSchema config schema post))
    (hreply : post (k - 1) = PostResult.err ∨
      (∃ status body, post (k - 1) = PostResult.resp status body ∧ status ≠ http.StatusOK) ∨
      post (k - 1) = PostResult.resp http.StatusOK none) :
    postCount (DgraphLoadSchema config schema post) = k ∧
      fatal (DgraphLoadSchema config schema post) = true ∧
      ∃ pre : List Event, postCount pre = k - 1 ∧ failed pre = false ∧
        DgraphLoadSchema config schema post =
          pre ++ [Event.httpPost (schemaURL config) "text/plain" schema, Event.failNow] := by
  obtain ⟨_, pre, hpc, hpf, heq⟩ := DgraphLoadSchema_attempt config schema post k hk hreach
  obtain ⟨hev, hret⟩ := replyEvents_fatal hreply
  rw [hev, hret] at heq
  simp only [Bool.false_eq_true, if_false, List.append_nil, List.singleton_append] at heq
  refine ⟨?_, ?_, pre, hpc, hpf, heq⟩
  · rw [heq, postCount_append, hpc]
    simp only [postCount]
    omega
  · rw [heq, fatal_append]
    simp [fatal]

/-- C10, at an instance: the first reply is a 503 whose body says "not ready". -/
theorem C10_no_retry_on_transport_status_decode_witness :
    postCount (DgraphLoadSchema sampleConfig "type User"
        (fun _ => PostResult.resp 503 (some notReadyResponse))) = 1 ∧
      fatal (DgraphLoadSchema sampleConfig "type User"
        (fun _ => PostResult.resp 503 (some notReadyResponse))) = true :=
  have h := C10_no_retry_on_transport_status_decode sampleConfig "type User"
    (fun _ => PostResult.resp 503 (some notReadyResponse)) 1
    (by decide) (by decide) (Or.inr (Or.inl ⟨503, some notReadyResponse, rfl, by decide⟩))
  ⟨h.1, h.2.1⟩

/-! ## Claims on `DgraphDropData` and `DgraphDropAll` -/

/-- C5. The bodies the drop operations post: the first event of `DgraphDropData` is the POST of
the text `dropDataBody` to the alter path, and that text, without its insignificant whitespace,
is the JSON object of the claim followed by one more closing brace, so it is not that JSON
document and its braces are not balanced.  The same holds of `DgraphDropAll`. -/
theorem C5_drop_bodies_carry_an_extra_brace :
    ((DgraphDropData sampleConfig (PostResult.resp 200 (some successWithErrors))).head? =
        some (Event.httpPost "http://localhost:8080/alter" "text/plain"
          "\x7b\"drop_op\": \"DATA\"\x7d\x7d") ∧
      json.compact dropDataBody = "\x7b\"drop_op\":\"DATA\"\x7d\x7d" ∧
      json.compact dropDataBody ≠ "\x7b\"drop_op\":\"DATA\"\x7d" ∧
      json.bracesBalanced dropDataBody = false ∧
      json.bracesBalanced "\x7b\"drop_op\":\"DATA\"\x7d" = true) ∧
    ((DgraphDropAll sampleConfig (PostResult.resp 200 (some successWithErrors))).head? =
        some (Event.httpPost "http://localhost:8080/alter" "text/plain"
          "\x7b\"drop_all\": true\x7d\x7d") ∧
      json.compact dropAllBody = "\x7b\"drop_all\":true\x7d\x7d" ∧
      json.compact dropAllBody ≠ "\x7b\"drop_all\":true\x7d" ∧
      json.bracesBalanced dropAllBody = false ∧
      json.bracesBalanced "\x7b\"drop_all\":true\x7d" = true) := by
  refine ⟨⟨by decide, by decide, by decide, by decide, by decide⟩,
    ⟨by decide, by decide, by decide, by decide, by decide⟩⟩

/-- C6. The drop operations are single-shot and strict: whatever the reply, `DgraphDropData`
makes exactly one POST, to `http://localhost:<port>/alter`, as its first event; the test is not
marked failed if and only if the POST returned no error, the status is 200, the body decodes
and `Data.Code` is "Success", and then the trace is that POST alone; in every other case a
`require` fails and the trace is the POST followed by the fatal failure, without a second
POST.  The same holds of `DgraphDropAll`. -/
theorem C6_drop_single_shot_strict (config : DgraphConfig) (reply : PostResult) :
    (postCount (DgraphDropData config reply) = 1 ∧
      (DgraphDropData config reply).head? =
        some (Event.httpPost ("http://localhost:" ++ fmt.d config.Port ++ "/alter")
          "text/plain" dropDataBody) ∧
      (failed (DgraphDropData config reply) = false ↔
        ∃ r, reply = PostResult.resp http.StatusOK (some r) ∧ r.Data.Code = "Success") ∧
      ((∃ r, reply = PostResult.resp http.StatusOK (some r) ∧ r.Data.Code = "Success") →
        DgraphDropData config reply = [Event.httpPost (alterURL config) "text/plain" dropDataBody]) ∧
      ((¬ ∃ r, reply = PostResult.resp http.StatusOK (some r) ∧ r.Data.Code = "Success") →
        DgraphDropData config reply =
          [Event.httpPost (alterURL config) "text/plain" dropDataBody, Event.failNow])) ∧
    (postCount (DgraphDropAll config reply) = 1 ∧
      (DgraphDropAll config reply).head? =
        some (Event.httpPost ("http://localhost:" ++ fmt.d config.Port ++ "/alter")
          "text/plain" dropAllBody) ∧
      (failed (DgraphDropAll config reply) = false ↔
        ∃ r, reply = PostResult.resp http.StatusOK (some r) ∧ r.Data.Code = "Success") ∧
      ((∃ r, reply = PostResult.resp http.StatusOK (some r) ∧ r.Data.Code = "Success") →
        DgraphDropAll config reply = [Event.httpPost (alterURL config) "text/plain" dropAllBody]) ∧
      ((¬ ∃ r, reply = PostResult.resp http.StatusOK (some r) ∧ r.Data.Code = "Success") →
        DgraphDropAll config reply =
          [Event.httpPost (alterURL config) "text/plain" dropAllBody, Event.failNow])) := by
  constructor
  · cases reply with
    | err => simp [DgraphDropData, postCount, failed, fatal, reported, alterURL]
    | resp status body =>
      by_cases hs : status = http.StatusOK
      · subst hs
        cases body with
        | none => simp [DgraphDropData, postCount, failed, fatal, reported, alterURL]
        | some r =>
          by_cases hc : r.Data.Code = "Success"
          · simp [DgraphDropData, postCount, failed, fatal, reported, alterURL, hc]
          · have hc2 : ¬ "Success" = r.Data.Code := fun h => hc h.symm
            simp [DgraphDropData, postCount, failed, fatal, reported, alterURL, hc, hc2]
      · simp [DgraphDropData, postCount, failed, fatal, reported, alterURL, hs]
  · cases reply with
    | err => simp [DgraphDropAll, postCount, failed, fatal, reported, alterURL]
    | resp status body =>
      by_cases hs : status = http.StatusOK
      · subst hs
        cases body with
        | none => simp [DgraphDropAll, postCount, failed, fatal, reported, alterURL]
        | some r =>
          by_cases hc : r.Data.Code = "Success"
          · simp [DgraphDropAll, postCount, failed, fatal, reported, alterURL, hc]
          · have hc2 : ¬ "Success" = r.Data.Code := fun h => hc h.symm
            simp [DgraphDropAll, postCount, failed, fatal, reported, alterURL, hc, hc2]
      · simp [DgraphDropAll, postCount, failed, fatal, reported, alterURL, hs]

/-! ## Claims on `DgraphStart` -/

/-- C7. Readiness polling in `DgraphStart`: when a port `p` was allocated and Docker created
and started the container `id`, then, whatever the outcomes of the GETs, `DgraphStart` returns
the handle with port `p` and container ID `id` and does not mark the test failed; the GETs go
to `http://localhost:<p>`; when the first ready outcome (no error and status 200) is the
`(j + 1)`-th, the number of GETs is `min 30 (j + 1)`; when no outcome is ready it is 30; and
the trace is a setup part without GETs followed, per GET issued, by the GET and, unless its
outcome is ready, a sleep of one second. -/
theorem C7_readiness_polling (env : StartEnv) (image : String) (p : Int) (id : String)
    (hport : getFreePort env.net = some p) (hclient : env.newClient = true)
    (hcreate : env.containerCreate = some id) (hstart : env.containerStart = true) :
    (DgraphStart env image).2 = some { Port := p, ContainerID := id } ∧
      failed (DgraphStart env image).1 = false ∧
      (∀ j, env.get j = GetResult.resp http.StatusOK →
        (∀ i, i < j → env.get i ≠ GetResult.resp http.StatusOK) →
        getCount (DgraphStart env image).1 = min 30 (j + 1)) ∧
      ((∀ i, env.get i ≠ GetResult.resp http.StatusOK) →
        getCount (DgraphStart env image).1 = 30) ∧
      ∃ setup : List Event, getCount setup = 0 ∧
        (DgraphStart env image).1 =
          setup ++ (List.range (getCount (DgraphStart env image).1)).flatMap
            (fun i => Event.httpGet ("http://localhost:" ++ fmt.d p) ::
              if env.get i = GetResult.resp http.StatusOK then []
              else [Event.sleep time.Second]) := by
  have hnot : ∀ g : GetResult, g ≠ GetResult.resp http.StatusOK → isReady g = false := by
    intro g hg
    cases h : isReady g with
    | false => rfl
    | true => exact absurd ((isReady_iff g).mp h) hg
  have htrace : (DgraphStart env image).1 =
      [Event.log "Starting dgraph container",
        Event.containerCreate
          { Image := if image = "" then DefaultDgraphImage else image, Env := [],
            ExposedPorts := [fmt.d p ++ "/tcp"] }
          { PortBindings := [("8080/tcp", [{ HostIP := "0.0.0.0", HostPort := fmt.d p }])] },
        Event.containerStart id, Event.sleep (time.Second * 1)] ++
        readinessLoop ("http://localhost:" ++ fmt.d p) env.get 30 0 := by
    simp [DgraphStart, hport, hclient, hcreate, hstart, DgraphConfig.GetURL]
  have hcount : getCount (DgraphStart env image).1 =
      getCount (readinessLoop ("http://localhost:" ++ fmt.d p) env.get 30 0) := by
    rw [htrace]; rfl
  refine ⟨?_, ?_, ?_, ?_, ?_⟩
  · simp [DgraphStart, hport, hclient, hcreate, hstart]
  · rw [htrace]
    exact failed_append_false (by simp [failed, fatal, reported]) (failed_readinessLoop _ _ 30 0)
  · intro j hj hbefore
    rw [hcount]
    apply getCount_readinessLoop_first _ env.get 30 0 j
    · rw [Nat.zero_add]; exact (isReady_iff _).mpr hj
    · intro t ht; rw [Nat.zero_add]; exact hnot _ (hbefore t ht)
  · intro hnone
    rw [hcount]
    apply getCount_readinessLoop_none
    intro t _
    exact hnot _ (hnone _)
  · refine ⟨[Event.log "Starting dgraph container",
      Event.containerCreate
        { Image := if image = "" then DefaultDgraphImage else image, Env := [],
          ExposedPorts := [fmt.d p ++ "/tcp"] }
        { PortBindings := [("8080/tcp", [{ HostIP := "0.0.0.0", HostPort := fmt.d p }])] },
      Event.containerStart id, Event.sleep (time.Second * 1)], rfl, ?_⟩
    rw [hcount, List.range_eq_range', ← readinessLoop_trace]
    exact htrace

/-- C7, at an instance: port 5000, three refused connections, then a 200. -/
theorem C7_readiness_polling_witness :
    (DgraphStart (sampleStartEnv (fun i => if i < 3 then GetResult.err else GetResult.resp 200))
        "").2 = some { Port := 5000, ContainerID := "c0ffee" } ∧
      getCount (DgraphStart
        (sampleStartEnv (fun i => if i < 3 then GetResult.err else GetResult.resp 200)) "").1 =
          4 :=
  have h := C7_readiness_polling
    (sampleStartEnv (fun i => if i < 3 then GetResult.err else GetResult.resp 200)) ""
    5000 "c0ffee" (by decide) (by decide) (by decide) (by decide)
  ⟨h.1, h.2.2.1 3 (by decide) (by decide)⟩

/-- C8. Port publication in `DgraphStart`, at the allocated port 5000: the container is created
with the port map that binds the container port `8080/tcp` to host interface `0.0.0.0`, host
port `5000`, and the returned handle has port 5000 and the URL `http://localhost:5000`; but
the exposed-port set holds `5000/tcp`, the allocated host port, and not the container port
`8080/tcp` of the port map. -/
theorem C8_exposed_port_is_the_host_port :
    (DgraphStart (sampleStartEnv (fun _ => GetResult.resp 200)) "").1 =
        [Event.log "Starting dgraph container",
          Event.containerCreate
            { Image := "dgraph/standalone:v21.03.2", Env := [], ExposedPorts := ["5000/tcp"] }
            { PortBindings := [("8080/tcp", [{ HostIP := "0.0.0.0", HostPort := "5000" }])] },
          Event.containerStart "c0ffee", Event.sleep 1000000000,
          Event.httpGet "http://localhost:5000"] ∧
      (DgraphStart (sampleStartEnv (fun _ => GetResult.resp 200)) "").2 =
        some { Port := 5000, ContainerID := "c0ffee" } ∧
      DgraphConfig.GetURL { Port := 5000, ContainerID := "c0ffee" } = "http://localhost:5000" ∧
      ["5000/tcp"] ≠ ["8080/tcp"] := by
  refine ⟨by decide, by decide, by decide, by decide⟩

end DgraphDockerHelper
